import Mathlib

/-!
Verification of the agent-side resilient delivery pipeline of the sentinel
repository, a shallow embedding of `src/clients/shared/base_client.py`
(`OfflineQueueManager` and `BaseMonitorClient`).

Modelling conventions:
* Activity payloads (Python dicts) are opaque values of a type parameter `α`
  (instantiated with `Nat` in concrete statements).
* The network is a pure oracle: `_send_single_report` observes one
  `HttpResult` per HTTP attempt (indexed by attempt number), and the
  queue-level functions observe a per-payload delivery verdict
  `send : α → Bool` (the boolean returned by `_send_single_report`).
* `time.sleep` calls and HTTP attempts are recorded in explicit traces so
  that temporal claims (retry delays, extended cool-down) are statable.
* Python exceptions that escape a function are modelled with `Option`
  (`none` = the call raises).
-/

/-- Outcome of one `requests.post` call in `_send_single_report`
(`base_client.py` lines 198-234): either an HTTP response with a status code
(and the optional `Retry-After` header value, which the code never reads),
or one of the exception classes the code catches. -/
inductive HttpResult where
  | response (status : Nat) (retryAfter : Option Nat)
  | connectionError
  | timeout
  | requestException
  | otherError
deriving DecidableEq, Repr

/-- Result of one call of `_send_single_report`: the returned boolean,
the number of HTTP attempts made, and the list of `time.sleep` durations
performed between attempts, in order. -/
structure SendResult where
  success : Bool
  attempts : Nat
  sleeps : List Nat
deriving DecidableEq, Repr

/-- The retry loop `for attempt in range(self.max_retries)` of
`_send_single_report` (`base_client.py` lines 191-236). `attempt` is the
0-based index of the current attempt, the second argument the number of
loop iterations still available (so `attempt < max_retries - 1`, i.e.
"not the last attempt", is `remaining > 0` after peeling one iteration).
Status 200 returns `True`; status 401 returns `False` immediately; any
other status, a connection error or a timeout sleeps `retry_delay` and
retries when iterations remain, else returns `False`; any other request
exception or unexpected exception returns `False` immediately. -/
def runAttempts (retryDelay : Nat) (net : Nat → HttpResult) (attempt : Nat) :
    Nat → SendResult
  | 0 => ⟨false, 0, []⟩
  | remaining + 1 =>
    match net attempt with
    | .response status _ =>
      if status = 200 then ⟨true, 1, []⟩
      else if status = 401 then ⟨false, 1, []⟩
      else if remaining = 0 then ⟨false, 1, []⟩
      else
        let r := runAttempts retryDelay net (attempt + 1) remaining
        ⟨r.success, r.attempts + 1, retryDelay :: r.sleeps⟩
    | .connectionError =>
      if remaining = 0 then ⟨false, 1, []⟩
      else
        let r := runAttempts retryDelay net (attempt + 1) remaining
        ⟨r.success, r.attempts + 1, retryDelay :: r.sleeps⟩
    | .timeout =>
      if remaining = 0 then ⟨false, 1, []⟩
      else
        let r := runAttempts retryDelay net (attempt + 1) remaining
        ⟨r.success, r.attempts + 1, retryDelay :: r.sleeps⟩
    | .requestException => ⟨false, 1, []⟩
    | .otherError => ⟨false, 1, []⟩

/-- `BaseMonitorClient._send_single_report` (`base_client.py` lines
189-236), as a function of `max_retries`, `retry_delay` and the network
oracle for this call. -/
def sendSingleReport (maxRetries retryDelay : Nat) (net : Nat → HttpResult) :
    SendResult :=
  runAttempts retryDelay net 0 maxRetries

/-- One entry of the offline queue: `OfflineQueueManager.add_activity`
wraps the payload as `{'timestamp': ..., 'data': activity_data}`
(`base_client.py` lines 62-65). Timestamps are modelled as naturals
supplied by the caller (the wall clock). -/
structure QueueEntry (α : Type) where
  timestamp : Nat
  data : α
deriving DecidableEq, Repr

/-- `OfflineQueueManager.add_activity` (`base_client.py` lines 55-66) on the
in-memory queue: if `len(queue) >= max_queue_size`, `pop(0)` removes the
oldest entry first — and raises `IndexError` when the queue is empty
(modelled as `none`, only reachable when `maxQueueSize = 0`) — then the new
entry is appended. -/
def addActivity {α : Type} (maxQueueSize : Nat) (q : List (QueueEntry α))
    (t : Nat) (d : α) : Option (List (QueueEntry α)) :=
  if q.length ≥ maxQueueSize then
    match q with
    | [] => none
    | _ :: rest => some (rest ++ [⟨t, d⟩])
  else
    some (q ++ [⟨t, d⟩])

/-- `OfflineQueueManager.remove_activities` (`base_client.py` lines 73-78):
drops the first `count` entries when `count > 0`, otherwise a no-op
(Python slicing clamps `count` to the length, as `List.drop` does). -/
def removeActivities {α : Type} (count : Nat) (q : List (QueueEntry α)) :
    List (QueueEntry α) :=
  if count > 0 then q.drop count else q

/-- Observable action of one `send_report` call: an `attempt` event per
invocation of `_send_single_report` (one per flushed queue item plus one
for the direct delivery), and a `cooldown` event for the extended
`time.sleep(self.interval * 2)` of the connection-recovery branch. -/
inductive SendEvent (α : Type) where
  | attempt (d : α)
  | cooldown (secs : Nat)
deriving DecidableEq, Repr

/-- The `for activity in pending_activities` loop of `flush_offline_queue`
(`base_client.py` lines 174-180): counts `successful_sends`, stopping at
the first item whose `_send_single_report` returns `False`, and records
one `attempt` event per item tried. -/
def flushLoop {α : Type} (send : α → Bool) :
    List (QueueEntry α) → Nat × List (SendEvent α)
  | [] => (0, [])
  | e :: rest =>
    if send e.data then
      let r := flushLoop send rest
      (r.1 + 1, SendEvent.attempt e.data :: r.2)
    else
      (0, [SendEvent.attempt e.data])

/-- Result of `flush_offline_queue`: the queue after removal, the returned
boolean (`successful_sends == len(pending_activities)`), and the attempt
trace. -/
structure FlushResult (α : Type) where
  queue : List (QueueEntry α)
  drained : Bool
  events : List (SendEvent α)
deriving DecidableEq, Repr

/-- `BaseMonitorClient.flush_offline_queue` (`base_client.py` lines
166-187): returns `True` immediately on an empty queue; otherwise runs the
send loop, removes the successfully-sent prefix via `remove_activities`
when `successful_sends > 0`, and reports whether everything was sent. -/
def flushOfflineQueue {α : Type} (send : α → Bool) (q : List (QueueEntry α)) :
    FlushResult α :=
  if q.isEmpty then ⟨q, true, []⟩
  else
    let r := flushLoop send q
    let q2 := if r.1 > 0 then removeActivities r.1 q else q
    ⟨q2, r.1 == q.length, r.2⟩

/-- Connection state of `BaseMonitorClient` together with its offline queue
(`base_client.py` lines 108-113): `is_online` starts `True` and
`consecutive_failures` at 0. -/
structure ClientState (α : Type) where
  queue : List (QueueEntry α)
  is_online : Bool
  consecutive_failures : Nat
deriving DecidableEq, Repr

/-- The configuration fields of `BaseMonitorClient` relevant to
`send_report`: queue capacity (the `OfflineQueueManager` is constructed
with the default `max_queue_size = 1000`), `max_consecutive_failures`
(initialised to 5) and the tick `interval` (default 60). -/
structure Config where
  maxQueueSize : Nat
  maxConsecutiveFailures : Nat
  interval : Nat
deriving DecidableEq, Repr

/-- Step 1 of `send_report` (`base_client.py` lines 240-247): if the queue
is non-empty, flush it; a full drain sets `is_online = True` and resets
`consecutive_failures`, a partial one sets `is_online = False` and
increments `consecutive_failures`. -/
def flushPhase {α : Type} (send : α → Bool) (s : ClientState α) :
    ClientState α × List (SendEvent α) :=
  if s.queue.isEmpty then (s, [])
  else
    let r := flushOfflineQueue send s.queue
    if r.drained then
      (⟨r.queue, true, 0⟩, r.events)
    else
      (⟨r.queue, false, s.consecutive_failures + 1⟩, r.events)

/-- Step 2 of `send_report` (`base_client.py` lines 249-257): when online,
attempt direct delivery of the new snapshot; on success reset
`consecutive_failures` and return `True`, on failure increment it and go
offline. The boolean component is the value `send_report` returns. -/
def directPhase {α : Type} (send : α → Bool) (d : α) (s : ClientState α) :
    ClientState α × List (SendEvent α) × Bool :=
  if s.is_online then
    if send d then
      (⟨s.queue, s.is_online, 0⟩, [SendEvent.attempt d], true)
    else
      (⟨s.queue, false, s.consecutive_failures + 1⟩, [SendEvent.attempt d], false)
  else
    (s, [], false)

/-- Step 3 of `send_report` (`base_client.py` lines 259-269): when offline,
enqueue the snapshot; then, if `consecutive_failures` has reached
`max_consecutive_failures`, sleep the extended cool-down
`interval * 2` and reset the counter. `none` models `add_activity`
raising (capacity 0 only). -/
def offlinePhase {α : Type} (cfg : Config) (t : Nat) (d : α)
    (s : ClientState α) : Option (ClientState α × List (SendEvent α)) :=
  if s.is_online then
    some (s, [])
  else
    match addActivity cfg.maxQueueSize s.queue t d with
    | none => none
    | some q2 =>
      if s.consecutive_failures ≥ cfg.maxConsecutiveFailures then
        some (⟨q2, false, 0⟩, [SendEvent.cooldown (cfg.interval * 2)])
      else
        some (⟨q2, false, s.consecutive_failures⟩, [])

/-- `BaseMonitorClient.send_report` (`base_client.py` lines 238-271):
flush-then-send-then-queue, returning the new state, the event trace of
the call in order, and the returned boolean (`True` exactly on direct
delivery success; otherwise the final `self.is_online`, which is `False`
on every other path). -/
def sendReport {α : Type} (cfg : Config) (send : α → Bool) (t : Nat)
    (s : ClientState α) (d : α) :
    Option (ClientState α × List (SendEvent α) × Bool) :=
  let f := flushPhase send s
  let dp := directPhase send d f.1
  match offlinePhase cfg t d dp.1 with
  | none => none
  | some (s2, ev3) => some (s2, f.2 ++ dp.2.1 ++ ev3, dp.2.2)

/-- Delivery verdict per payload, derived from `_send_single_report`: the
queue-level loops observe only the boolean, with `net d` the network
behaviour for payload `d` within this call. -/
def deliverVia {α : Type} (maxRetries retryDelay : Nat)
    (net : α → Nat → HttpResult) : α → Bool :=
  fun d => (sendSingleReport maxRetries retryDelay (net d)).success

/-- Content of the persisted queue file `offline_queue.pkl`: either a valid
pickle of an entry list (written by `_save_queue`), or content on which
reading / `pickle.load` raises (`corrupt`). -/
inductive FileContent (α : Type) where
  | pickled (entries : List (QueueEntry α))
  | corrupt
deriving DecidableEq

/-- `pickle.load` on the modelled file content: succeeds exactly on
well-formed pickles, returning the stored entry list. -/
def pickleLoad {α : Type} : FileContent α → Except String (List (QueueEntry α))
  | .pickled xs => .ok xs
  | .corrupt => .error "unpickling error"

/-- `OfflineQueueManager._load_queue` (`base_client.py` lines 35-45): the
file argument is `none` when `os.path.exists` is false. A missing file
gives the empty queue; a read/deserialize error is caught and gives the
empty queue; a valid pickle gives its stored entries. -/
def loadQueue {α : Type} (file : Option (FileContent α)) :
    List (QueueEntry α) :=
  match file with
  | none => []
  | some f =>
    match pickleLoad f with
    | .ok xs => xs
    | .error _ => []

/-- `OfflineQueueManager._save_queue` (`base_client.py` lines 47-53): a
successful save writes a pickle of the current queue. -/
def saveQueue {α : Type} (q : List (QueueEntry α)) : Option (FileContent α) :=
  some (.pickled q)

/-- The configuration the repository actually constructs: queue capacity
1000, `max_consecutive_failures = 5`, default `interval = 60`. -/
def cfgDefault : Config := ⟨1000, 5, 60⟩

/-- Initial connection state (`base_client.py` lines 111-112): online,
zero consecutive failures, with the queue loaded at startup (empty here). -/
def initState : ClientState Nat := ⟨[], true, 0⟩

lemma flushLoop_le_length {α : Type} (send : α → Bool) :
    ∀ q : List (QueueEntry α), (flushLoop send q).1 ≤ q.length := by
  intro q
  induction q with
  | nil => simp [flushLoop]
  | cons e rest ih =>
    by_cases h : send e.data
    · simp [flushLoop, h]
      exact ih
    · simp [flushLoop, h]

lemma flushLoop_events {α : Type} (send : α → Bool) :
    ∀ q : List (QueueEntry α),
      (flushLoop send q).2 =
        (q.take ((flushLoop send q).1 + 1)).map
          (fun e => SendEvent.attempt e.data) := by
  intro q
  induction q with
  | nil => simp [flushLoop]
  | cons e rest ih =>
    by_cases h : send e.data
    · simp [flushLoop, h, ih]
    · simp [flushLoop, h]

lemma flushLoop_success {α : Type} (send : α → Bool) :
    ∀ (q : List (QueueEntry α)) (i : Nat) (e : QueueEntry α),
      i < (flushLoop send q).1 → q.get? i = some e → send e.data = true := by
  intro q
  induction q with
  | nil => intro i e hlt; simp [flushLoop] at hlt
  | cons a rest ih =>
    intro i e hlt hget
    by_cases h : send a.data
    · cases i with
      | zero =>
        simp at hget
        subst hget
        exact h
      | succ j =>
        simp [flushLoop, h] at hlt
        exact ih j e hlt (by simpa using hget)
    · simp [flushLoop, h] at hlt

lemma flushLoop_failure {α : Type} (send : α → Bool) :
    ∀ (q : List (QueueEntry α)) (e : QueueEntry α),
      q.get? (flushLoop send q).1 = some e → send e.data = false := by
  intro q
  induction q with
  | nil => intro e hget; simp at hget
  | cons a rest ih =>
    intro e hget
    by_cases h : send a.data
    · have hc : (flushLoop send (a :: rest)).1 = (flushLoop send rest).1 + 1 := by
        simp [flushLoop, h]
      rw [hc] at hget
      exact ih e (by simpa using hget)
    · have hc : (flushLoop send (a :: rest)).1 = 0 := by simp [flushLoop, h]
      rw [hc] at hget
      simp at hget
      subst hget
      exact eq_false_of_ne_true h

lemma flushOfflineQueue_queue {α : Type} (send : α → Bool)
    (q : List (QueueEntry α)) :
    (flushOfflineQueue send q).queue = q.drop (flushLoop send q).1 := by
  by_cases hq : q.isEmpty
  · have : q = [] := List.isEmpty_iff.mp hq
    subst this
    simp [flushOfflineQueue, flushLoop]
  · by_cases hz : (flushLoop send q).1 > 0
    · simp [flushOfflineQueue, hq, hz, removeActivities]
    · have h0 : (flushLoop send q).1 = 0 := Nat.eq_zero_of_not_pos hz
      simp [flushOfflineQueue, hq, hz, h0]

lemma flushOfflineQueue_events {α : Type} (send : α → Bool)
    (q : List (QueueEntry α)) (hq : q ≠ []) :
    (flushOfflineQueue send q).events =
      (q.take ((flushLoop send q).1 + 1)).map
        (fun e => SendEvent.attempt e.data) := by
  have hne : ¬ q.isEmpty := by simpa [List.isEmpty_iff] using hq
  simp [flushOfflineQueue, hne, flushLoop_events]

lemma flushLoop_all_success {α : Type} (send : α → Bool) :
    ∀ q : List (QueueEntry α), (∀ e ∈ q, send e.data = true) →
      (flushLoop send q).1 = q.length := by
  intro q
  induction q with
  | nil => intro _; simp [flushLoop]
  | cons a rest ih =>
    intro hall
    have ha : send a.data = true := hall a (by simp)
    have hr : (flushLoop send rest).1 = rest.length :=
      ih fun e he => hall e (by simp [he])
    simp [flushLoop, ha, hr]

lemma addActivity_bounded {α : Type} (c : Nat) (hc : 1 ≤ c)
    (q : List (QueueEntry α)) (t : Nat) (d : α) (hlen : q.length ≤ c) :
    ∃ q2, addActivity c q t d = some q2 ∧ q2.length ≤ c := by
  by_cases hge : q.length ≥ c
  · have heq : q.length = c := le_antisymm hlen hge
    cases q with
    | nil => simp at heq; omega
    | cons a rest =>
      have hc2 : c ≤ rest.length + 1 := by simpa using hge
      have heq2 : rest.length + 1 = c := by simpa using heq
      refine ⟨rest ++ [⟨t, d⟩], ?_, ?_⟩
      · simp [addActivity, hc2]
      · simp; omega
  · have hlt : ¬ c ≤ q.length := hge
    refine ⟨q ++ [⟨t, d⟩], ?_, ?_⟩
    · simp [addActivity, hlt]
    · have : q.length < c := by omega
      simp; omega

lemma addActivity_ne_nil {α : Type} (c : Nat) (q : List (QueueEntry α))
    (t : Nat) (d : α) (q2 : List (QueueEntry α))
    (h : addActivity c q t d = some q2) : q2 ≠ [] := by
  unfold addActivity at h
  by_cases hge : q.length ≥ c
  · simp [hge] at h
    cases q with
    | nil => simp at h
    | cons a rest => simp at h; subst h; simp
  · simp [hge] at h
    subst h
    simp

/-- Multiple `add_activity` calls in sequence, starting from the empty
queue, propagating a raised exception (`none`). The operations are
(timestamp, payload) pairs. -/
def enqueueAll (c : Nat) (ops : List (Nat × Nat)) :
    Option (List (QueueEntry Nat)) :=
  ops.foldl
    (fun acc td =>
      match acc with
      | none => none
      | some q => addActivity c q td.1 td.2)
    (some [])

lemma enqueueAll_go (c : Nat) (hc : 1 ≤ c) :
    ∀ (ops : List (Nat × Nat)) (q : List (QueueEntry Nat)), q.length ≤ c →
      ∃ q2,
        ops.foldl
          (fun acc td =>
            match acc with
            | none => none
            | some q => addActivity c q td.1 td.2)
          (some q) = some q2 ∧ q2.length ≤ c := by
  intro ops
  induction ops with
  | nil => intro q hq; exact ⟨q, rfl, hq⟩
  | cons op rest ih =>
    intro q hq
    obtain ⟨q1, hq1, hlen1⟩ := addActivity_bounded c hc q op.1 op.2 hq
    obtain ⟨q2, hq2, hlen2⟩ := ih q1 hlen1
    exact ⟨q2, by simpa [hq1] using hq2, hlen2⟩

/-- C1: during a flush of a non-empty backlog, items are attempted
oldest-first (the attempt trace is the map of the tried prefix in queue
order); the flush stops at the first item whose delivery fails; the
resulting queue is the original minus exactly the successfully-delivered
prefix, so every item at or after the first failure remains in original
order (`List.drop` of the success count). -/
theorem flush_stops_at_first_failed_item (send : Nat → Bool)
    (q : List (QueueEntry Nat)) (hq : q ≠ []) :
    (flushOfflineQueue send q).queue = q.drop (flushLoop send q).1
    ∧ (flushOfflineQueue send q).events =
        (q.take ((flushLoop send q).1 + 1)).map
          (fun e => SendEvent.attempt e.data)
    ∧ (∀ (i : Nat) (e : QueueEntry Nat), i < (flushLoop send q).1 →
        q.get? i = some e → send e.data = true)
    ∧ (∀ e : QueueEntry Nat,
        q.get? (flushLoop send q).1 = some e → send e.data = false) :=
  ⟨flushOfflineQueue_queue send q,
   flushOfflineQueue_events send q hq,
   fun i e hi hget => flushLoop_success send q i e hi hget,
   fun e hget => flushLoop_failure send q e hget⟩

/-- Witness for C1 at the spec's concrete example: backlog `[A, B, C]`
(payloads 0, 1, 2), sending A succeeds and sending B fails; the backlog
afterwards is exactly `[B, C]`. -/
theorem flush_stops_at_first_failed_item_witness :
    ([⟨0, 0⟩, ⟨1, 1⟩, ⟨2, 2⟩] : List (QueueEntry Nat)) ≠ []
    ∧ (flushOfflineQueue (fun d => decide (d = 0))
        [⟨0, 0⟩, ⟨1, 1⟩, ⟨2, 2⟩]).queue = [⟨1, 1⟩, ⟨2, 2⟩] := by
  constructor
  · decide
  · have h := (flush_stops_at_first_failed_item
      (fun d => decide (d = 0)) [⟨0, 0⟩, ⟨1, 1⟩, ⟨2, 2⟩] (by decide)).1
    rw [h]
    decide

/-- Counterexample for C2: with capacity 0 (an `int` value the constructor
accepts), the very first enqueue on the empty queue reaches
`self._queue.pop(0)` with an empty list, which raises `IndexError` — so
"enqueue never fails" does not hold for every capacity. -/
theorem addActivity_capacity_zero_raises :
    addActivity 0 ([] : List (QueueEntry Nat)) 0 0 = none := rfl

/-- C2 (amended): for every capacity `c ≥ 1`, any sequence of enqueues
starting from the empty backlog succeeds and keeps the size at most `c`;
an enqueue performed at size `c` removes index 0 first and then appends;
with capacity 3, enqueueing payloads A, B, C, D (0, 1, 2, 3) leaves
exactly `[B, C, D]`. (With capacity 0, enqueue on the empty backlog
raises: see the counterexample.) -/
theorem enqueue_bounded_evicts_oldest (c : Nat) (hc : 1 ≤ c)
    (ops : List (Nat × Nat)) :
    (∃ q, enqueueAll c ops = some q ∧ q.length ≤ c)
    ∧ (∀ (q : List (QueueEntry Nat)) (t d : Nat), q.length = c →
        addActivity c q t d = some (q.tail ++ [⟨t, d⟩]))
    ∧ enqueueAll 3 [(0, 0), (1, 1), (2, 2), (3, 3)] =
        some [⟨1, 1⟩, ⟨2, 2⟩, ⟨3, 3⟩] := by
  refine ⟨?_, ?_, by decide⟩
  · exact enqueueAll_go c hc ops [] (by simp)
  · intro q t d hlen
    cases q with
    | nil => simp at hlen; omega
    | cons a rest =>
      have hc2 : c ≤ rest.length + 1 := by simp at hlen; omega
      simp [addActivity, hc2]

/-- Witness for C2 (amended) at capacity 3 with a single enqueue. -/
theorem enqueue_bounded_evicts_oldest_witness :
    1 ≤ 3 ∧ (∃ q, enqueueAll 3 [(0, 7)] = some q ∧ q.length ≤ 3) :=
  ⟨by decide, (enqueue_bounded_evicts_oldest 3 (by decide) [(0, 7)]).1⟩

/-- C7: loading the persisted backlog never fails startup — a missing file
yields the empty queue, content on which read/deserialize raises yields
the empty queue, and a file successfully saved from a backlog of entries
reloads exactly those entries in their original order (in particular the
same count). -/
theorem load_queue_fail_open (xs : List (QueueEntry Nat)) :
    loadQueue (none : Option (FileContent Nat)) = []
    ∧ loadQueue (some (FileContent.corrupt : FileContent Nat)) = []
    ∧ loadQueue (saveQueue xs) = xs
    ∧ (loadQueue (saveQueue xs)).length = xs.length :=
  ⟨rfl, rfl, rfl, rfl⟩

lemma runAttempts_attempts_le (retryDelay : Nat) (net : Nat → HttpResult) :
    ∀ (remaining attempt : Nat),
      (runAttempts retryDelay net attempt remaining).attempts ≤ remaining := by
  intro remaining
  induction remaining with
  | zero => intro attempt; simp [runAttempts]
  | succ k ih =>
    intro attempt
    cases hnet : net attempt with
    | response status ra =>
      by_cases h200 : status = 200
      · simp [runAttempts, hnet, h200]
      · by_cases h401 : status = 401
        · simp [runAttempts, hnet, h200, h401]
        · by_cases hk : k = 0
          · simp [runAttempts, hnet, h200, h401, hk]
          · have := ih (attempt + 1)
            simp [runAttempts, hnet, h200, h401, hk]
            omega
    | connectionError =>
      by_cases hk : k = 0
      · simp [runAttempts, hnet, hk]
      · have := ih (attempt + 1)
        simp [runAttempts, hnet, hk]
        omega
    | timeout =>
      by_cases hk : k = 0
      · simp [runAttempts, hnet, hk]
      · have := ih (attempt + 1)
        simp [runAttempts, hnet, hk]
        omega
    | requestException => simp [runAttempts, hnet]
    | otherError => simp [runAttempts, hnet]

/-- C9: one call of `_send_single_report` makes at most `max_retries`
HTTP attempts, whatever the network does — no outcome class leads to an
unbounded number of retries within the call. -/
theorem send_single_report_attempts_bounded
    (maxRetries retryDelay : Nat) (net : Nat → HttpResult) :
    (sendSingleReport maxRetries retryDelay net).attempts ≤ maxRetries :=
  runAttempts_attempts_le retryDelay net maxRetries 0

/-- Network behaviour answering every attempt of every payload with
HTTP 401 and a `Retry-After: 60` header value absent. -/
def net401 : Nat → Nat → HttpResult := fun _ _ => .response 401 none

/-- Counterexample for C3: on a 401 the single-report call does return
not-delivered after one attempt (no retry, no sleep), and `send_report`
returns `False` — but the snapshot (payload 7, enqueued with timestamp 0)
IS added to the offline backlog and the state flips to Offline, so "the
snapshot is never added to the offline backlog" is false on the code. -/
theorem send_report_401_enqueues_snapshot :
    sendSingleReport 3 5 (net401 7) = ⟨false, 1, []⟩
    ∧ sendReport cfgDefault (deliverVia 3 5 net401) 0 initState 7 =
        some (⟨[⟨0, 7⟩], false, 1⟩, [SendEvent.attempt 7], false) := by
  constructor
  · rfl
  · decide

/-- C3 (amended): when a direct delivery attempt of a new snapshot (from
an online state with an empty backlog) receives HTTP 401, the per-item
call returns not-delivered after a single attempt with no retry and an
operator-visible error log, `send_report` returns not-delivered — and the
snapshot IS added to the offline backlog (the code has no permanent-
discard path: a 401 failure is requeued like any other failure and the
state becomes Offline). -/
theorem send_report_401_requeues (cfg : Config) (mr delay t d : Nat)
    (s : ClientState Nat) (net : Nat → Nat → HttpResult) (ra : Option Nat)
    (hcap : 1 ≤ cfg.maxQueueSize) (hth : 2 ≤ cfg.maxConsecutiveFailures)
    (hon : s.is_online = true) (hq : s.queue = [])
    (hcf : s.consecutive_failures = 0) (hmr : 1 ≤ mr)
    (hnet : net d 0 = .response 401 ra) :
    sendSingleReport mr delay (net d) = ⟨false, 1, []⟩
    ∧ sendReport cfg (deliverVia mr delay net) t s d =
        some (⟨[⟨t, d⟩], false, 1⟩, [SendEvent.attempt d], false) := by
  obtain ⟨k, rfl⟩ : ∃ k, mr = k + 1 := ⟨mr - 1, by omega⟩
  have hsingle : sendSingleReport (k + 1) delay (net d) = ⟨false, 1, []⟩ := by
    simp [sendSingleReport, runAttempts, hnet]
  refine ⟨hsingle, ?_⟩
  have hsend : deliverVia (k + 1) delay net d = false := by
    simp [deliverVia, hsingle]
  have hcap0 : ¬ cfg.maxQueueSize = 0 := by omega
  have hnocool : ¬ (1 ≥ cfg.maxConsecutiveFailures) := by omega
  obtain ⟨sq, so, scf⟩ := s
  simp at hon hq hcf
  subst hon; subst hq; subst hcf
  simp [sendReport, flushPhase, directPhase, offlinePhase, hsend,
    addActivity, hcap0, hnocool]

/-- Witness for C3 (amended), at the defaults: capacity 1000, threshold 5,
3 retries, delay 5, fresh online client, payload 7 at timestamp 0. -/
theorem send_report_401_requeues_witness :
    1 ≤ cfgDefault.maxQueueSize
    ∧ sendReport cfgDefault (deliverVia 3 5 net401) 0 initState 7 =
        some (⟨[⟨0, 7⟩], false, 1⟩, [SendEvent.attempt 7], false) :=
  ⟨by decide,
   (send_report_401_requeues cfgDefault 3 5 0 7 initState net401 none
      (by decide) (by decide) rfl rfl rfl (by decide) rfl).2⟩

/-- Network behaviour for the C4 counterexample: payload 0 (item A) is
answered on every attempt with HTTP 400 (a fatal per-item rejection);
every other payload is answered with 200. -/
def netFatalA : Nat → Nat → HttpResult :=
  fun d _ => if d = 0 then .response 400 none else .response 200 none

/-- Counterexample for C4: backlog `[A(fatal), B]` with A answered 400 and
B answered 200. The flush attempts only A (with the full retry cycle),
stops, removes nothing, and never attempts B — so "A is dropped in place
and B is attempted next" is false on the code. -/
theorem fatal_item_blocks_flush_cex :
    (flushOfflineQueue (deliverVia 3 5 netFatalA) [⟨0, 0⟩, ⟨1, 1⟩]).queue
        = [⟨0, 0⟩, ⟨1, 1⟩]
    ∧ (flushOfflineQueue (deliverVia 3 5 netFatalA) [⟨0, 0⟩, ⟨1, 1⟩]).events
        = [SendEvent.attempt 0]
    ∧ (flushOfflineQueue (deliverVia 3 5 netFatalA) [⟨0, 0⟩, ⟨1, 1⟩]).drained
        = false := by
  refine ⟨?_, ?_, ?_⟩ <;> decide

/-- C4 (amended): during a flush, an item whose delivery fails — including
a fatal per-item 4xx rejection, which `_send_single_report` reports only
as the same `False` as any other failure — stops the scan in place: it is
NOT removed from the backlog, the items after it are not attempted, and
the flush reports not-drained. A fatal item therefore DOES block delivery
of the items queued after it; for a backlog `[A(fatal), B]`, A stays and
B is not attempted. -/
theorem fatal_item_blocks_flush (send : Nat → Bool) (a b : QueueEntry Nat)
    (hfail : send a.data = false) :
    flushOfflineQueue send [a, b] =
      ⟨[a, b], false, [SendEvent.attempt a.data]⟩ := by
  simp [flushOfflineQueue, flushLoop, hfail]

/-- Witness for C4 (amended): a two-item backlog whose head always fails. -/
theorem fatal_item_blocks_flush_witness :
    (fun (_ : Nat) => false) ((⟨0, 0⟩ : QueueEntry Nat)).data = false
    ∧ flushOfflineQueue (fun (_ : Nat) => false)
        [(⟨0, 0⟩ : QueueEntry Nat), ⟨1, 1⟩] =
      ⟨[⟨0, 0⟩, ⟨1, 1⟩], false, [SendEvent.attempt 0]⟩ :=
  ⟨rfl, fatal_item_blocks_flush (fun _ => false) ⟨0, 0⟩ ⟨1, 1⟩ rfl⟩

/-- Network behaviour for the C5 counterexample: every attempt is answered
HTTP 429 with a `Retry-After: 60` header. -/
def net429 : Nat → HttpResult := fun _ => .response 429 (some 60)

/-- Counterexample for C5: with every attempt answered 429 carrying
`Retry-After: 60`, `_send_single_report` (3 retries, 5s delay) sleeps the
fixed 5 seconds between attempts and never waits the 60-second
server-supplied hint — the `Retry-After` header is not read by the code. -/
theorem rate_limit_ignores_retry_after_cex :
    sendSingleReport 3 5 net429 = ⟨false, 3, [5, 5]⟩
    ∧ ¬ (60 ∈ (sendSingleReport 3 5 net429).sleeps) := by
  refine ⟨by decide, by decide⟩

/-- C5 (amended): a 429 response is handled by the generic retry branch:
the item is not immediately dropped — each wait counts as one retry
attempt, up to `max_retries` (default 3) attempts — but the wait is always
the fixed `retry_delay`; the server-supplied `Retry-After` hint is
ignored, whatever its value. -/
theorem rate_limit_retries_fixed_delay (ra : Option Nat) (delay : Nat) :
    sendSingleReport 3 delay (fun _ => HttpResult.response 429 ra)
      = ⟨false, 3, [delay, delay]⟩ := by
  simp [sendSingleReport, runAttempts]

/-- C6: if at the start of a `send_report` call the backlog is non-empty
and the flush delivers every pending item, then the flush step already
produces the state Online with `consecutive_failures = 0` (and an empty
queue), and `send_report` continues — the direct attempt of the new
snapshot — from exactly that state. -/
theorem full_flush_goes_online_before_direct_send (cfg : Config)
    (send : Nat → Bool) (t d : Nat) (s : ClientState Nat)
    (hne : s.queue ≠ []) (hall : ∀ e ∈ s.queue, send e.data = true) :
    (flushPhase send s).1 = ⟨[], true, 0⟩
    ∧ sendReport cfg send t s d =
        (let dp := directPhase send d (⟨[], true, 0⟩ : ClientState Nat)
         match offlinePhase cfg t d dp.1 with
         | none => none
         | some (s2, ev3) =>
             some (s2, (flushPhase send s).2 ++ dp.2.1 ++ ev3, dp.2.2)) := by
  have hne2 : ¬ s.queue.isEmpty := by simpa [List.isEmpty_iff] using hne
  have hn : (flushLoop send s.queue).1 = s.queue.length :=
    flushLoop_all_success send s.queue hall
  have hqd : (flushOfflineQueue send s.queue).queue = [] := by
    rw [flushOfflineQueue_queue, hn]
    simp
  have hdr : (flushOfflineQueue send s.queue).drained = true := by
    simp [flushOfflineQueue, hne2, hn]
  have h1 : (flushPhase send s).1 = ⟨[], true, 0⟩ := by
    simp [flushPhase, hne2, hdr, hqd]
  refine ⟨h1, ?_⟩
  simp only [sendReport, h1]
  cases hOP : offlinePhase cfg t d
      (directPhase send d
        (⟨[], true, 0⟩ : ClientState Nat)).1 with
  | none => rfl
  | some pair => cases pair with | mk s3 ev3 => rfl

/-- Witness for C6: a one-item backlog whose item delivers, entered from
an Offline state with 3 accumulated failures. -/
theorem full_flush_goes_online_before_direct_send_witness :
    ((⟨[⟨0, 1⟩], false, 3⟩ : ClientState Nat).queue ≠ [])
    ∧ (flushPhase (fun _ => true) (⟨[⟨0, 1⟩], false, 3⟩ : ClientState Nat)).1
        = ⟨[], true, 0⟩ :=
  ⟨by decide,
   (full_flush_goes_online_before_direct_send cfgDefault (fun _ => true) 5 9
      (⟨[⟨0, 1⟩], false, 3⟩ : ClientState Nat) (by decide) (by decide)).1⟩

/-- C8: when `consecutive_failures` reaches `max_consecutive_failures`
(here: a direct-delivery failure pushes the counter from threshold-1 to
the threshold), the `send_report` call ends with the extended cool-down
sleep `interval * 2` — it is the final event of the call, after the
call's network attempts and hence before any network call of the next
scheduled attempt — and `consecutive_failures` is reset to 0. -/
theorem threshold_triggers_cooldown_and_reset (cfg : Config)
    (send : Nat → Bool) (t d : Nat) (s : ClientState Nat)
    (hcap : 1 ≤ cfg.maxQueueSize) (hon : s.is_online = true)
    (hq : s.queue = []) (hfail : send d = false)
    (hth : cfg.maxConsecutiveFailures ≤ s.consecutive_failures + 1) :
    sendReport cfg send t s d =
      some (⟨[⟨t, d⟩], false, 0⟩,
            [SendEvent.attempt d, SendEvent.cooldown (cfg.interval * 2)],
            false) := by
  obtain ⟨sq, so, scf⟩ := s
  simp at hon hq hth
  subst hon; subst hq
  have hcap0 : ¬ cfg.maxQueueSize = 0 := by omega
  simp [sendReport, flushPhase, directPhase, offlinePhase, addActivity,
    hfail, hcap0, hth]

/-- Witness for C8: defaults, fresh online client with 4 accumulated
failures, payload 7 failing — the call ends in `attempt` then the
120-second cool-down, with the counter reset. -/
theorem threshold_triggers_cooldown_and_reset_witness :
    1 ≤ cfgDefault.maxQueueSize
    ∧ cfgDefault.maxConsecutiveFailures ≤ 4 + 1
    ∧ sendReport cfgDefault (fun _ => false) 0
        (⟨[], true, 4⟩ : ClientState Nat) 7 =
        some (⟨[⟨0, 7⟩], false, 0⟩,
              [SendEvent.attempt 7, SendEvent.cooldown 120], false) :=
  ⟨by decide, by decide,
   threshold_triggers_cooldown_and_reset cfgDefault (fun _ => false) 0 7
     (⟨[], true, 4⟩ : ClientState Nat) (by decide) rfl rfl rfl (by decide)⟩

lemma offlinePhase_offline_queue_ne_nil {α : Type} (cfg : Config) (t : Nat)
    (d : α) (st s3 : ClientState α) (ev3 : List (SendEvent α))
    (h : offlinePhase cfg t d st = some (s3, ev3))
    (hoff : s3.is_online = false) : s3.queue ≠ [] := by
  unfold offlinePhase at h
  by_cases hO : st.is_online = true
  · simp [hO] at h
    obtain ⟨h1, -⟩ := h
    rw [← h1] at hoff
    rw [hO] at hoff
    exact absurd hoff (by simp)
  · have hO2 : st.is_online = false := by simpa using hO
    simp [hO2] at h
    cases hadd : addActivity cfg.maxQueueSize st.queue t d with
    | none => rw [hadd] at h; simp at h
    | some q2 =>
      rw [hadd] at h
      have hne := addActivity_ne_nil cfg.maxQueueSize st.queue t d q2 hadd
      by_cases hth : st.consecutive_failures ≥ cfg.maxConsecutiveFailures
      · simp [hth] at h
        obtain ⟨h1, -⟩ := h
        rw [← h1]
        simpa using hne
      · simp [hth] at h
        obtain ⟨h1, -⟩ := h
        rw [← h1]
        simpa using hne

/-- C10: Offline implies a non-empty backlog — for any entering state (in
particular every state reachable from the initial Online/empty one), if a
`send_report` call completes (no raised exception) and leaves the state
Offline, the backlog holds at least one undelivered snapshot: every
transition to (or stay in) Offline enqueues the current snapshot within
the same call, and the backlog only fully drains on a flush that sets the
state Online. -/
theorem offline_state_has_nonempty_backlog (cfg : Config)
    (send : Nat → Bool) (t d : Nat) (s s2 : ClientState Nat)
    (evs : List (SendEvent Nat)) (r : Bool)
    (h : sendReport cfg send t s d = some (s2, evs, r))
    (hoff : s2.is_online = false) : s2.queue ≠ [] := by
  simp only [sendReport] at h
  cases hOP : offlinePhase cfg t d
      (directPhase send d (flushPhase send s).1).1 with
  | none => rw [hOP] at h; simp at h
  | some pair =>
    cases pair with
    | mk s3 ev3 =>
      rw [hOP] at h
      simp at h
      obtain ⟨h1, -, -⟩ := h
      rw [← h1] at hoff ⊢
      exact offlinePhase_offline_queue_ne_nil cfg t d
        (directPhase send d (flushPhase send s).1).1 s3 ev3 hOP hoff

/-- Witness for C10: a fresh online client whose direct delivery fails —
the call completes Offline with the snapshot queued. -/
theorem offline_state_has_nonempty_backlog_witness :
    sendReport cfgDefault (fun _ => false) 0 initState 7 =
        some (⟨[⟨0, 7⟩], false, 1⟩, [SendEvent.attempt 7], false)
    ∧ (⟨[⟨0, 7⟩], false, 1⟩ : ClientState Nat).is_online = false
    ∧ (⟨[⟨0, 7⟩], false, 1⟩ : ClientState Nat).queue ≠ [] :=
  ⟨by decide, rfl,
   offline_state_has_nonempty_backlog cfgDefault (fun _ => false) 0 7
     initState (⟨[⟨0, 7⟩], false, 1⟩ : ClientState Nat)
     [SendEvent.attempt 7] false (by decide) rfl⟩
